import Mathlib

/-!
Verification of the Avalon Miner Home Assistant integration core:
a shallow embedding of `miner_client.py`, `const.py`, `coordinator.py`
and the sensor layer, with theorems settling the specification claims.

Modelling conventions:
* Python `int` is `ℤ`; Python `float` is `PyFloat` (an exact rational plus
  the special values `inf`, `-inf`, `nan`; IEEE-754 rounding and overflow
  are abstracted away — no claim depends on rounding of finite values).
* A raised Python exception is modelled with `Option`/`Except`: `none`
  (or `.error`) is a raised exception, `some` a normal return.
* Python dicts are ordered association lists; assignment overwrites the
  first matching key in place, otherwise appends.
* Strings are processed through their character lists; the ASCII
  whitespace and case rules of Python are modelled.
-/

namespace Avalon

/-- Python `float` values: exact rationals plus the IEEE special values. -/
inductive PyFloat where
  | finite (q : ℚ)
  | inf
  | neginf
  | nan
deriving DecidableEq, Repr

/-- ASCII whitespace accepted by Python's numeric-string conversions. -/
def isPyWhite (c : Char) : Bool :=
  c = ' ' || c = '\t' || c = '\n' || c = '\r' || c = '\x0b' || c = '\x0c'

/-- Does a character run match the CPython digit-run rule
`[0-9](_?[0-9])*` (single underscores only between digits)? -/
def udRunOk : List Char → Bool
  | [] => false
  | [c] => c.isDigit
  | c :: d :: rest =>
    c.isDigit &&
      (if d = '_' then
        match rest with
        | [] => false
        | e :: _ => e.isDigit && udRunOk rest
      else udRunOk (d :: rest))

/-- Maximal prefix of digit/underscore characters, plus the remainder. -/
def takeDigitUnd : List Char → List Char × List Char
  | [] => ([], [])
  | c :: rest =>
    if c.isDigit || c = '_' then
      let p := takeDigitUnd rest
      (c :: p.1, p.2)
    else ([], c :: rest)

/-- Consume a digit run in CPython underscore style; returns the digit
characters (underscores removed) and the remaining input.  (Taking the
maximal digit/underscore prefix and validating it is equivalent, for
whole-string parses, to the CPython rule: a rejected prefix leaves a
character no literal can continue with.) -/
def takeUDigits (cs : List Char) : Option (List Char × List Char) :=
  let p := takeDigitUnd cs
  if udRunOk p.1 then some (p.1.filter (fun c => c ≠ '_'), p.2) else none

def digitsToNat (ds : List Char) : ℕ :=
  ds.foldl (fun a c => 10 * a + (c.toNat - 48)) 0

/-- Leading sign of a Python numeric string; `true` means negative. -/
def takeSign : List Char → Bool × List Char
  | '+' :: rest => (false, rest)
  | '-' :: rest => (true, rest)
  | cs => (false, cs)

def stripPyWs (cs : List Char) : List Char :=
  ((cs.dropWhile isPyWhite).reverse.dropWhile isPyWhite).reverse

/-- Mantissa of a Python float literal: `digits`, `digits.`, `digits.digits`
or `.digits` (with underscore placement checked by `takeUDigits`). -/
def parseMantissa (cs : List Char) : Option (ℚ × List Char) :=
  match takeUDigits cs with
  | some (ds, rest) =>
    match rest with
    | '.' :: rest2 =>
      match takeUDigits rest2 with
      | some (fs, rest3) =>
        some ((digitsToNat ds : ℚ) + (digitsToNat fs : ℚ) / (10 : ℚ) ^ fs.length, rest3)
      | none => some ((digitsToNat ds : ℚ), rest2)
    | _ => some ((digitsToNat ds : ℚ), rest)
  | none =>
    match cs with
    | '.' :: rest2 =>
      match takeUDigits rest2 with
      | some (fs, rest3) =>
        some ((digitsToNat fs : ℚ) / (10 : ℚ) ^ fs.length, rest3)
      | none => none
    | _ => none

/-- Exponent part `e`/`E`, optional sign, digits. -/
def parseExponent (cs : List Char) : Option (ℤ × List Char) :=
  match cs with
  | c :: rest =>
    if c = 'e' || c = 'E' then
      let sr := takeSign rest
      match takeUDigits sr.2 with
      | some (ds, rest2) =>
        some ((if sr.1 then -(digitsToNat ds : ℤ) else (digitsToNat ds : ℤ)), rest2)
      | none => none
    else none
  | [] => none

/-- Python `float(string)` (ASCII model): optional whitespace and sign, then
`inf`/`infinity`/`nan` (case-insensitive) or a decimal literal with optional
fraction and exponent. `none` models a raised `ValueError`. -/
def pyFloatOfChars (cs0 : List Char) : Option PyFloat :=
  let cs1 := stripPyWs cs0
  let sr := takeSign cs1
  let cs := sr.2
  let low := cs.map Char.toLower
  if low = "inf".data || low = "infinity".data then
    some (if sr.1 then PyFloat.neginf else PyFloat.inf)
  else if low = "nan".data then some PyFloat.nan
  else
    match parseMantissa cs with
    | some (m, rest) =>
      let signed : ℚ := if sr.1 then -m else m
      match rest with
      | [] => some (PyFloat.finite signed)
      | _ =>
        match parseExponent rest with
        | some (e, []) => some (PyFloat.finite (signed * (10 : ℚ) ^ e))
        | _ => none
    | none => none

def pyFloatOfString (s : String) : Option PyFloat := pyFloatOfChars s.data

/-- Python `int(string)` (ASCII, base 10): optional whitespace and sign, then
digits. `none` models a raised `ValueError`. -/
def pyIntOfChars (cs0 : List Char) : Option ℤ :=
  let cs1 := stripPyWs cs0
  let sr := takeSign cs1
  match takeUDigits sr.2 with
  | some (ds, []) => some (if sr.1 then -(digitsToNat ds : ℤ) else (digitsToNat ds : ℤ))
  | _ => none

def pyIntOfString (s : String) : Option ℤ := pyIntOfChars s.data

/-- Parsed scalar values of the response grammar. -/
inductive Scalar where
  | int (n : ℤ)
  | float (f : PyFloat)
  | bool (b : Bool)
  | str (s : String)
deriving DecidableEq, Repr

def lowerStr (s : String) : String := String.mk (s.data.map Char.toLower)

/-- Python substring test specialised to one character (`"." in value`). -/
def strContainsChar (s : String) (c : Char) : Bool := s.data.contains c

/-- Source `miner_client._is_numeric`: `float(value)` succeeds. -/
def _is_numeric (s : String) : Bool := (pyFloatOfString s).isSome

/-- Source `miner_client._is_bool_string`. -/
def _is_bool_string (s : String) : Bool :=
  lowerStr s = "true" || lowerStr s = "false"

/-- Source `miner_client._coerce`.  `none` models the `ValueError` raised by
`int(value)` on a float-parseable token without a decimal point that is not
an integer literal (for example `"1e5"` or `"inf"`). -/
def _coerce (s : String) : Option Scalar :=
  if _is_numeric s then
    if strContainsChar s '.' then (pyFloatOfString s).map Scalar.float
    else (pyIntOfString s).map Scalar.int
  else if _is_bool_string s then some (Scalar.bool (lowerStr s = "true"))
  else some (Scalar.str s)

/-- A Python list comprehension over a fallible element operation:
`none` as soon as one element raises. -/
def traverseOpt {A B : Type} (f : A → Option B) : List A → Option (List B)
  | [] => some []
  | x :: xs => do
    let y ← f x
    let ys ← traverseOpt f xs
    pure (y :: ys)

/-- Nested values of the response grammar: a coerced scalar or an array of
coerced scalars. -/
inductive NVal where
  | scalar (s : Scalar)
  | arr (xs : List Scalar)
deriving DecidableEq, Repr

/-- A parsed field value: a scalar (plain strings included) or a nested
map built from `key[inner]` tokens. -/
inductive Value where
  | scalar (s : Scalar)
  | nested (m : List (String × NVal))
deriving DecidableEq, Repr

/-- One parsed record: a Python dict modelled as an ordered association
list with in-place overwrite on duplicate keys. -/
abbrev Record := List (String × Value)

/-- Python `dict.__setitem__`: overwrite in place, else append. -/
def setKey (m : List (String × Value)) (k : String) (v : Value) :
    List (String × Value) :=
  if m.any (fun p => p.1 = k) then
    m.map (fun p => if p.1 = k then (k, v) else p)
  else m ++ [(k, v)]

/-- Python `dict.get` (no default). -/
def getKey (m : List (String × Value)) (k : String) : Option Value :=
  (m.find? (fun p => p.1 = k)).map (fun p => p.2)

/-- Source `dict.get` on a nested map. -/
def getNK (m : List (String × NVal)) (k : String) : Option NVal :=
  (m.find? (fun p => p.1 = k)).map (fun p => p.2)

/-- Python `str.split(sep)` for a one-character separator: keeps empty
pieces and always returns at least one piece. -/
def charSplit : List Char → Char → List (List Char)
  | [], _ => [[]]
  | c :: rest, sep =>
    let r := charSplit rest sep
    if c = sep then [] :: r
    else
      match r with
      | h :: t => (c :: h) :: t
      | [] => [[c]]

/-- Source `miner_client._split_considering_delimiters`: split on `delim` at
bracket depth 0; the depth is updated before the delimiter test, empty
current pieces are appended mid-string but a trailing empty piece is
dropped, and an empty input yields no pieces. -/
def _split_considering_delimiters (text : List Char) (delim : Char) :
    List (List Char) :=
  let step :
      (ℤ × List Char × List (List Char)) → Char →
        (ℤ × List Char × List (List Char)) :=
    fun st char =>
      let bc := st.1
      let current := st.2.1
      let parts := st.2.2
      let bc1 : ℤ :=
        if char = '[' then bc + 1 else if char = ']' then bc - 1 else bc
      if char = delim ∧ bc1 = 0 then (bc1, [], parts ++ [current])
      else (bc1, current ++ [char], parts)
  let fin := text.foldl step ((0 : ℤ), [], [])
  if fin.2.1 = [] then fin.2.2 else fin.2.2 ++ [fin.2.1]

/-- String wrapper for `_split_considering_delimiters`. -/
def splitCD (text : String) (delim : Char) : List String :=
  (_split_considering_delimiters text.data delim).map String.mk

/-- Source `miner_client._extract_inside_brackets`: scan for a `key[value]` shape;
a later `[` restarts the key, the first `]` ends the value. -/
def _extract_inside_brackets (text : List Char) : String × String :=
  let step :
      (Bool × List Char × List Char × List Char) → Char →
        (Bool × List Char × List Char × List Char) :=
    fun st char =>
      let stopped := st.1
      let key := st.2.1
      let value := st.2.2.1
      let current := st.2.2.2
      if stopped then st
      else if char = '[' then (false, current, value, [])
      else if char = ']' then (true, key, current, current)
      else (false, key, value, current ++ [char])
  let fin := text.foldl step (false, [], [], [])
  (String.mk fin.2.1, String.mk fin.2.2.1)

/-- Python `value.split(" ")` (single-space separator, keeps empties). -/
def plainSplitSpace (s : String) : List String :=
  (charSplit s.data ' ').map String.mk

/-- The nested-bracket branch of the token loop:
`key[subkey[val] subkey[val] ...]`; each part is reduced with
`_extract_inside_brackets`, empty inner values are skipped, inner values
with internal spaces become arrays of coerced scalars.  `none` models a
`ValueError` escaping from `_coerce`. -/
def nestedOfParts (value_parts : List String) :
    Option (List (String × NVal)) :=
  value_parts.foldlM
    (fun nested vp => do
      let kv := _extract_inside_brackets vp.data
      if kv.2 = "" then pure nested
      else
        let inner_parts := plainSplitSpace kv.2
        if inner_parts.length > 1 then
          let xs ← traverseOpt _coerce (inner_parts.filter (fun i => i ≠ ""))
          pure (nested ++ [(kv.1, NVal.arr xs)])
        else do
          let s ← _coerce kv.2
          pure (nested ++ [(kv.1, NVal.scalar s)]))
    []

/-- The body of the token loop of `parse_miner_response`, applied to the
`=`-split fields of one comma-separated token. -/
def processTokenFields (record : Record) (tokens : List String) :
    Option Record :=
  match tokens with
  | key :: raw_value :: _ =>
    if raw_value = "" then some record
    else
      let value_parts := splitCD raw_value ' '
      if value_parts.length = 1 then
        (_coerce raw_value).map (fun s => setKey record key (Value.scalar s))
      else if value_parts.length = 0 then some record
      else if value_parts.all
          (fun vp => !strContainsChar vp '[' && !strContainsChar vp ']') then
        some (setKey record key
          (Value.scalar (Scalar.str (String.intercalate " " value_parts))))
      else
        (nestedOfParts value_parts).map
          (fun nested => setKey record key (Value.nested nested))
  | _ => some record

/-- One comma-separated token: split on `=` (bracket-aware) and process. -/
def processToken (record : Record) (subpart : String) : Option Record :=
  processTokenFields record (splitCD subpart '=')

/-- Source `miner_client.parse_miner_response`: split on `|` into sections, each
section on `,` (bracket-aware), each token on `=`; `none` models an
exception escaping from scalar coercion. -/
def parse_miner_response (text : String) : Option (List Record) :=
  traverseOpt (fun part => (splitCD part ',').foldlM processToken [])
    ((charSplit text.data '|').map String.mk)

/-! ### `const.py`: valid frequencies and command strings -/

/-- Source `const.VALID_MINER_FREQUENCIES`. -/
def VALID_MINER_FREQUENCIES : List ℤ :=
  [25, 300, 312, 325, 337, 350, 362, 375, 387, 400, 408, 412, 416, 425, 433,
   437, 441, 450, 458, 462, 466, 475, 483, 487, 491, 500, 508, 512, 516, 525,
   533, 537, 550, 562, 575, 587, 600, 612, 625, 637, 650, 662, 675, 687, 700,
   712, 725, 737, 750, 762, 775, 787, 800, 825, 850, 875, 900, 925, 950, 975,
   1000, 1025, 1050, 1075, 1100, 1125, 1150, 1175, 1200]

/-- Source `const.cmd_set_frequency`: the literal command string. -/
def cmd_set_frequency (freq1 freq2 freq3 freq4 hash_no : ℤ) : String :=
  "ascset|0,frequency," ++ toString freq1 ++ ":" ++ toString freq2 ++ ":" ++
    toString freq3 ++ ":" ++ toString freq4 ++ "-0-" ++ toString hash_no ++ "-0"

/-- Source `const.cmd_set_voltage`: the literal command string. -/
def cmd_set_voltage (voltage : ℤ) : String :=
  "ascset|0,voltage-level," ++ toString voltage ++ "-0-0"

/-- Source `AvalonMinerClient.set_frequency`, up to the point where the command
string is handed to the transport: the two validation checks run before any
network call, so `.error` models a `ValueError` raised with no command sent
and `.ok cmd` models the exact command string that is then sent. -/
def set_frequency (freq1 freq2 freq3 freq4 hash_no : ℤ) :
    Except String String :=
  match [freq1, freq2, freq3, freq4].find?
      (fun freq => decide (freq ∉ VALID_MINER_FREQUENCIES)) with
  | some freq =>
    Except.error ("Frequency " ++ toString freq ++
      " MHz is not a valid Avalon frequency")
  | none =>
    if freq1 < freq2 ∧ freq2 < freq3 ∧ freq3 < freq4 then
      Except.ok (cmd_set_frequency freq1 freq2 freq3 freq4 hash_no)
    else
      Except.error
        "Frequencies must be in strictly ascending order (f1 < f2 < f3 < f4)"

/-- Source `AvalonMinerClient.set_voltage`, up to the transport hand-off. -/
def set_voltage (voltage : ℤ) : Except String String :=
  if 0 ≤ voltage ∧ voltage ≤ 60 then Except.ok (cmd_set_voltage voltage)
  else Except.error ("Voltage level " ++ toString voltage ++ " out of range [0, 60]")

/-! ### Structured miner data (`miner_client.py` dataclasses) -/

/-- Source `ControllerVersion` dataclass. -/
structure ControllerVersion where
  api : ℚ := 0
  product : String := ""
  model : ℤ := 0
  hw_type : String := ""
  sw_type : String := ""
  version : String := ""
  dna : String := ""
  mac : String := ""
deriving DecidableEq, Repr

/-- Source `HashPowerState` dataclass. -/
structure HashPowerState where
  error : ℤ := 0
  controller_voltage : ℤ := 0
  hash_board_voltage : ℤ := 0
  output_current : ℤ := 0
  output_power : ℤ := 0
  voltage_setting : ℤ := 0
deriving DecidableEq, Repr

/-- Source `SummaryData` dataclass; `board_mhs` is the board-indexed hashrate map. -/
structure SummaryData where
  elapsed : ℤ := 0
  mhs_av : ℚ := 0
  mhs_30s : ℚ := 0
  mhs_1m : ℚ := 0
  accepted : ℤ := 0
  rejected : ℤ := 0
  hardware_errors : ℤ := 0
  best_share : ℤ := 0
  pool_rejected_pct : ℚ := 0
  board_mhs : List (ℤ × ℚ) := []
deriving DecidableEq, Repr

/-- Source `PoolData` dataclass. -/
structure PoolData where
  index : ℤ := 0
  url : String := ""
  user : String := ""
  status : String := ""
  accepted : ℤ := 0
  rejected : ℤ := 0
  rejected_pct : ℚ := 0
  stratum_difficulty : ℚ := 0
  current_block_height : ℤ := 0
deriving DecidableEq, Repr

/-- Source `HashboardData` dataclass. -/
structure HashboardData where
  board_id : ℤ := 0
  frequencies : List ℤ := []
  hashrate_mhs : ℚ := 0
deriving DecidableEq, Repr

/-- Source `MinerData` dataclass: the aggregated snapshot.  Note that it declares
no cumulative-energy field; the coordinator layer below models the
dynamically attached attribute separately. -/
structure MinerData where
  ip : String := ""
  online : Bool := false
  soft_off : Bool := false
  controller : ControllerVersion := {}
  mhs_av : ℚ := 0
  mhs_30s : ℚ := 0
  mhs_1m : ℚ := 0
  accepted_shares : ℤ := 0
  rejected_shares : ℤ := 0
  hardware_errors : ℤ := 0
  best_share : ℤ := 0
  pool_rejected_pct : ℚ := 0
  temp_current : PyFloat := PyFloat.finite 0
  temp_avg : PyFloat := PyFloat.finite 0
  temp_max : PyFloat := PyFloat.finite 0
  fan1_rpm : ℤ := 0
  fan2_rpm : ℤ := 0
  fan_duty_pct : ℤ := 0
  output_power_w : ℤ := 0
  hash_board_voltage_mv : ℚ := 0
  output_current_a : ℤ := 0
  uptime_seconds : ℤ := 0
  pools : List PoolData := []
  hashboards : List HashboardData := []
  work_mode : ℤ := 0
deriving DecidableEq, Repr

/-! ### Python conversions applied to parsed values -/

/-- Truncation toward zero, Python `int(float)` on a finite value. -/
def ratTrunc (q : ℚ) : ℤ := if q < 0 then -(Rat.floor (-q)) else Rat.floor q

/-- Result of Python `int(x)`: distinguishes the exception class because
some call sites catch only `ValueError`. -/
inductive IntCastResult where
  | ok (n : ℤ)
  | valueError
  | overflowError
deriving DecidableEq, Repr

/-- Python `int(x)` on a parsed scalar. -/
def intCast : Scalar → IntCastResult
  | Scalar.int n => IntCastResult.ok n
  | Scalar.bool b => IntCastResult.ok (if b then 1 else 0)
  | Scalar.float (PyFloat.finite q) => IntCastResult.ok (ratTrunc q)
  | Scalar.float PyFloat.inf => IntCastResult.overflowError
  | Scalar.float PyFloat.neginf => IntCastResult.overflowError
  | Scalar.float PyFloat.nan => IntCastResult.valueError
  | Scalar.str s =>
    match pyIntOfString s with
    | some n => IntCastResult.ok n
    | none => IntCastResult.valueError

/-- Python `int(x)` where no exception is caught: any failure propagates. -/
def intCastStrict (s : Scalar) : Option ℤ :=
  match intCast s with
  | IntCastResult.ok n => some n
  | _ => none

/-- Python truthiness of a parsed scalar. -/
def scalarTruthy : Scalar → Bool
  | Scalar.int n => n ≠ 0
  | Scalar.bool b => b
  | Scalar.str s => s ≠ ""
  | Scalar.float (PyFloat.finite q) => q ≠ 0
  | Scalar.float _ => true

/-- Python truthiness of a nested value. -/
def nvTruthy : NVal → Bool
  | NVal.scalar s => scalarTruthy s
  | NVal.arr xs => xs ≠ []

/-! ### `query_hash_power_state` -/

/-- The regex fallback `re.search(r"PS\[([^\]]+)\]", msg)`: first position
where `PS[` is followed by at least one non-`]` character and a closing
`]`; returns the captured characters. -/
def extractPS : List Char → Option (List Char)
  | [] => none
  | c :: rest =>
    match c, rest with
    | 'P', 'S' :: '[' :: tail =>
      let inner := tail.takeWhile (fun ch => ch ≠ ']')
      if inner ≠ [] ∧ inner.length < tail.length then some inner
      else extractPS rest
    | _, _ => extractPS rest

/-- Python `str.split()` with no argument: whitespace runs, no empties. -/
def splitWsAux : List Char → List Char → List (List Char)
  | [], cur => if cur = [] then [] else [cur.reverse]
  | c :: rest, cur =>
    if isPyWhite c then
      if cur = [] then splitWsAux rest []
      else cur.reverse :: splitWsAux rest []
    else splitWsAux rest (c :: cur)

def splitWs (cs : List Char) : List String :=
  (splitWsAux cs []).map String.mk

/-- The `PS` list recovered from the `Msg` field: the structured dict form,
the plain-string regex fallback, or an empty list when `Msg` is neither.
`none` models an uncaught exception from `int(...)` or from iterating a
non-iterable. -/
def psOfMsg : Value → Option (List ℤ)
  | Value.nested m =>
    match getNK m "PS" with
    | none => some []
    | some (NVal.arr xs) => traverseOpt intCastStrict xs
    | some (NVal.scalar (Scalar.str s)) =>
      traverseOpt (fun c => pyIntOfString (String.mk [c])) s.data
    | some (NVal.scalar _) => none
  | Value.scalar (Scalar.str s) =>
    match extractPS s.data with
    | none => some []
    | some inner => traverseOpt pyIntOfString (splitWs inner)
  | Value.scalar _ => some []

/-- Source `ps[i] if len(ps) > i else 0`. -/
def psGet (ps : List ℤ) (i : ℕ) : ℤ := (ps.get? i).getD 0

/-- Source `AvalonMinerClient.query_hash_power_state` applied to the parsed
records of the `ascset|0,hashpower` response. -/
def query_hash_power_state (records : List Record) : Option HashPowerState :=
  let raw := records.head?.getD []
  let msg := (getKey raw "Msg").getD (Value.nested [])
  (psOfMsg msg).map (fun ps =>
    { error := psGet ps 0
      controller_voltage := psGet ps 1
      hash_board_voltage := psGet ps 2
      output_current := psGet ps 3
      output_power := psGet ps 4
      voltage_setting := psGet ps 5 })

/-! ### estats helpers (`parse_hashboards_and_temps`, `parse_fan_data`) -/

/-- Source `summary.board_mhs.get(i, 0.0)`. -/
def boardMhsGet (m : List (ℤ × ℚ)) (k : ℤ) : ℚ :=
  ((m.find? (fun p => p.1 = k)).map (fun p => p.2)).getD 0

/-- Source `int(system_statu[-1])` with `ValueError`/`IndexError` caught (other
exceptions propagate), guarded by the truthiness test of `SYSTEMSTATU`. -/
def boardCountOf : Option NVal → Option ℤ
  | none => some 0
  | some (NVal.arr []) => some 0
  | some (NVal.arr (x :: xs)) =>
    match intCast ((x :: xs).getLast (by simp)) with
    | IntCastResult.ok n => some n
    | IntCastResult.valueError => some 0
    | IntCastResult.overflowError => none
  | some (NVal.scalar (Scalar.str s)) =>
    if s = "" then some 0
    else
      match s.data.getLast? with
      | some c =>
        match pyIntOfString (String.mk [c]) with
        | some n => some n
        | none => some 0
      | none => some 0
  | some (NVal.scalar sc) => if scalarTruthy sc then none else some 0

/-- Source `[int(f) for f in mod.get(f"SF{i}", [0, 0, 0, 0])]`; exceptions
propagate. -/
def freqsOf : Option NVal → Option (List ℤ)
  | none => some [0, 0, 0, 0]
  | some (NVal.arr xs) => traverseOpt intCastStrict xs
  | some (NVal.scalar (Scalar.str s)) =>
    traverseOpt (fun c => pyIntOfString (String.mk [c])) s.data
  | some (NVal.scalar _) => none

/-- Source `float(mod.get(key, 0.0))`; exceptions propagate. -/
def floatOfNV : Option NVal → Option PyFloat
  | none => some (PyFloat.finite 0)
  | some (NVal.scalar (Scalar.float f)) => some f
  | some (NVal.scalar (Scalar.int n)) => some (PyFloat.finite n)
  | some (NVal.scalar (Scalar.bool b)) =>
    some (PyFloat.finite (if b then 1 else 0))
  | some (NVal.scalar (Scalar.str s)) => pyFloatOfString s
  | some (NVal.arr _) => none

/-- Source `int(mod.get(key, 0))`; exceptions propagate. -/
def intOfNV : Option NVal → Option ℤ
  | none => some 0
  | some (NVal.scalar sc) => intCastStrict sc
  | some (NVal.arr _) => none

/-- Source `AvalonMinerClient.parse_hashboards_and_temps`. -/
def parse_hashboards_and_temps (details : Record) (summary : SummaryData) :
    Option (List HashboardData × PyFloat × PyFloat × PyFloat × Bool × ℤ) :=
  match getKey details "MM ID0" with
  | some (Value.nested mod) =>
    if mod = [] then
      some ([], PyFloat.finite 0, PyFloat.finite 0, PyFloat.finite 0, false, 0)
    else do
      let board_count ← boardCountOf (getNK mod "SYSTEMSTATU")
      let hashboards ← traverseOpt (fun i => do
        let freqs ← freqsOf (getNK mod ("SF" ++ toString i))
        pure ({ board_id := (i : ℤ)
                frequencies := freqs
                hashrate_mhs := boardMhsGet summary.board_mhs (i : ℤ) } :
          HashboardData)) (List.range board_count.toNat)
      let temp_current ← floatOfNV (getNK mod "Temp")
      let temp_avg ← floatOfNV (getNK mod "TAvg")
      let temp_max ← floatOfNV (getNK mod "TMax")
      let soft_off := (getNK mod "SoftOFF").elim false nvTruthy
      let work_mode ← intOfNV (getNK mod "WORKMODE")
      pure (hashboards, temp_current, temp_avg, temp_max, soft_off, work_mode)
  | some (Value.scalar _) =>
    some ([], PyFloat.finite 0, PyFloat.finite 0, PyFloat.finite 0, false, 0)
  | none =>
    some ([], PyFloat.finite 0, PyFloat.finite 0, PyFloat.finite 0, false, 0)

/-- A single quote character, for Python `repr` of strings. -/
def sq : String := String.mk [Char.ofNat 39]

/-- Python `repr` of a parsed scalar inside a list (model: the decimal
text of a finite float is abstracted; the only downstream use is that it
never parses as an integer literal, which holds of every form Python
prints for a non-integral position — it always contains `.`, `e`, `inf`
or `nan`). -/
def scalarRepr : Scalar → String
  | Scalar.int n => toString n
  | Scalar.bool b => if b then "True" else "False"
  | Scalar.str s => sq ++ s ++ sq
  | Scalar.float (PyFloat.finite q) =>
    toString q.num ++ "." ++ toString q.den
  | Scalar.float PyFloat.inf => "inf"
  | Scalar.float PyFloat.neginf => "-inf"
  | Scalar.float PyFloat.nan => "nan"

/-- Python `str(x)` of a nested value. -/
def strOfNVal : NVal → String
  | NVal.scalar (Scalar.str s) => s
  | NVal.scalar sc => scalarRepr sc
  | NVal.arr xs =>
    "[" ++ String.intercalate ", " (xs.map scalarRepr) ++ "]"

/-- Python `str.rstrip("%")`. -/
def rstripPct (s : String) : String :=
  String.mk (s.data.reverse.dropWhile (fun c => c = '%')).reverse

/-- Source `AvalonMinerClient.parse_fan_data`.  The `FanR` duty parse catches
`ValueError` and defaults to 0; the `Fan1`/`Fan2` conversions do not, and
`.get` on a non-dict `MM ID0` raises (`none`). -/
def parse_fan_data (details : Record) : Option (ℤ × ℤ × ℤ) :=
  let tryMod : Option (List (String × NVal)) :=
    match getKey details "MM ID0" with
    | some (Value.nested mod) => some mod
    | some (Value.scalar _) => none
    | none => some []
  match tryMod with
  | none => none
  | some mod => do
    let fan1 ← intOfNV (getNK mod "Fan1")
    let fan2 ← intOfNV (getNK mod "Fan2")
    let fan_r_raw := (getNK mod "FanR").getD (NVal.scalar (Scalar.str "0%"))
    let fan_duty :=
      match pyIntOfString (rstripPct (strOfNVal fan_r_raw)) with
      | some n => n
      | none => 0
    pure (fan1, fan2, fan_duty)

/-! ### `fetch_full_snapshot` -/

/-- Outcome of the five independent sub-queries of one snapshot pass:
`none` is a sub-query whose exception was caught and logged. -/
structure QueryResults where
  version : Option ControllerVersion := none
  summary : Option SummaryData := none
  details : Option Record := none
  power : Option HashPowerState := none
  pools : Option (List PoolData) := none

/-- The straight-line portion of `fetch_full_snapshot`: the snapshot after
the five guarded sub-queries and the summary-sourced fields, before the
estats post-processing. -/
def assembleBase (ip : String) (qr : QueryResults) : MinerData :=
  let d0 : MinerData := { ip := ip, online := true }
  let d1 :=
    match qr.version with
    | some c => { d0 with controller := c }
    | none => d0
  let summary := qr.summary.getD {}
  let d2 :=
    match qr.power with
    | some p =>
      { d1 with
        output_power_w := p.output_power
        hash_board_voltage_mv := (p.hash_board_voltage : ℚ) / 100
        output_current_a := p.output_current }
    | none => d1
  let d3 :=
    match qr.pools with
    | some ps => { d2 with pools := ps }
    | none => d2
  { d3 with
    mhs_av := summary.mhs_av
    mhs_30s := summary.mhs_30s
    mhs_1m := summary.mhs_1m
    accepted_shares := summary.accepted
    rejected_shares := summary.rejected
    hardware_errors := summary.hardware_errors
    best_share := summary.best_share
    pool_rejected_pct := summary.pool_rejected_pct
    uptime_seconds := summary.elapsed }

/-- Source `AvalonMinerClient.fetch_full_snapshot`: every sub-query failure is
caught and defaulted; the estats post-processing (`if details:`) is not
guarded, so `none` models an exception escaping from it. -/
def fetch_full_snapshot (ip : String) (qr : QueryResults) :
    Option MinerData :=
  let d := assembleBase ip qr
  let details := qr.details.getD []
  if details = [] then some d
  else
    match parse_hashboards_and_temps details (qr.summary.getD {}),
        parse_fan_data details with
    | some hb, some fans =>
      some { d with
        hashboards := hb.1
        temp_current := hb.2.1
        temp_avg := hb.2.2.1
        temp_max := hb.2.2.2.1
        soft_off := hb.2.2.2.2.1
        work_mode := hb.2.2.2.2.2
        fan1_rpm := fans.1
        fan2_rpm := fans.2.1
        fan_duty_pct := fans.2.2 }
    | _, _ => none

/-! ### `coordinator.py`: polling state machine -/

/-- The process-resident per-miner state of `AvalonMinerCoordinator`. -/
structure CoordState where
  was_online : Bool := false
  offline_count : ℕ := 0
  energy_kwh : ℚ := 0
  last_energy_ts : Option ℚ := none
deriving DecidableEq, Repr

/-- Constructor-time state (`_was_online = False`, counters zero). -/
def initialCoordState : CoordState := {}

/-- The environment of one `_async_update_data` call: the probe result,
the wall-clock time of the sample (seconds), and the outcome of
`fetch_full_snapshot` when it is reached (`none` = it raised). -/
structure TickInput where
  online : Bool
  now : ℚ
  fetch : Option MinerData
deriving Repr

/-- A snapshot as returned by the coordinator: the dataclass plus the
dynamically attached `energy_consumed_kwh` attribute (`none` = the
attribute was never set on this object, so reading it raises
`AttributeError`). -/
structure CoordData where
  data : MinerData
  energy_consumed_kwh : Option ℚ
deriving DecidableEq, Repr

/-- Python `round(x, 4)`: round half to even at four decimal places. -/
def roundHalfEven (x : ℚ) : ℤ :=
  let n := Rat.floor x
  let f := x - n
  if f < 1/2 then n
  else if 1/2 < f then n + 1
  else if n % 2 = 0 then n else n + 1

def pyRound4 (q : ℚ) : ℚ := (roundHalfEven (q * 10000) : ℚ) / 10000

/-- One `_async_update_data` call.  Returns the updated state, whether the
auto-configuration sequencer (`_on_connect`) was invoked on this tick, and
the returned snapshot (`none` = the tick raised `UpdateFailed`). -/
def tick (ip : String) (auto_start : Bool) (st : CoordState)
    (inp : TickInput) : CoordState × Bool × Option CoordData :=
  if inp.online = false then
    ({ st with was_online := false, offline_count := st.offline_count + 1 },
     false,
     some { data := { ip := ip, online := false },
            energy_consumed_kwh := none })
  else
    let just_came_online := !st.was_online
    let invoked := just_came_online && auto_start
    let st1 := { st with was_online := true, offline_count := 0 }
    match inp.fetch with
    | none => (st1, invoked, none)
    | some d =>
      let e :=
        match st1.last_energy_ts with
        | some t =>
          if 0 < d.output_power_w then
            st1.energy_kwh +
              (d.output_power_w : ℚ) * ((inp.now - t) / 3600) / 1000
          else st1.energy_kwh
        | none => st1.energy_kwh
      let st2 := { st1 with energy_kwh := e, last_energy_ts := some inp.now }
      (st2, invoked,
       some { data := d, energy_consumed_kwh := some (pyRound4 e) })

/-- A sequence of ticks; collects the per-tick sequencer-invocation flags. -/
def runTicks (ip : String) (auto_start : Bool) :
    CoordState → List TickInput → CoordState × List Bool
  | st, [] => (st, [])
  | st, inp :: rest =>
    let r := tick ip auto_start st inp
    let r2 := runTicks ip auto_start r.1 rest
    (r2.1, r.2.1 :: r2.2)

/-- The probe result of the tick preceding tick `i`, with `w0` standing in
for the (OFFLINE) state before the first tick. -/
def prevOnline (w0 : Bool) (inputs : List TickInput) : ℕ → Bool
  | 0 => w0
  | j + 1 =>
    match inputs.get? j with
    | some x => x.online
    | none => false

/-! ### `_on_connect`: the auto-configuration sequencer -/

/-- What one sequencer attempt observes: either `query_summary` raises, or
it returns a summary whose 30-second hashrate is `mhs30`, in which case
`startOk` is the result `start_hashing` would report if it were pushed
(`start_hashing` catches its own exceptions and returns a boolean). -/
inductive AttemptOutcome where
  | summaryFail
  | summary (mhs30 : ℚ) (startOk : Bool)

/-- Observable trace of one `_on_connect` run: the number of attempts
executed, the number of configuration pushes tried, the list of
inter-attempt delays (seconds) in order, and whether the run ended in a
successful push.  The function is total: the run never raises. -/
structure ConnectTrace where
  attempts : ℕ
  pushes : ℕ
  sleeps : List ℕ
  success : Bool
deriving DecidableEq, Repr

/-- Source `coordinator._on_connect.max_attempts`. -/
def max_attempts : ℕ := 10

/-- Source `coordinator._on_connect.sleep_between_attempts` (seconds). -/
def sleep_between_attempts : ℕ := 30

/-- The attempt loop of `_on_connect`, from attempt number `a` with `n`
attempts remaining. -/
def onConnectFrom (env : ℕ → AttemptOutcome) : ℕ → ℕ → ConnectTrace
  | _, 0 => { attempts := 0, pushes := 0, sleeps := [], success := false }
  | a, n + 1 =>
    match env a with
    | AttemptOutcome.summaryFail =>
      let t := onConnectFrom env (a + 1) n
      { attempts := t.attempts + 1, pushes := t.pushes,
        sleeps := sleep_between_attempts :: t.sleeps, success := t.success }
    | AttemptOutcome.summary mhs30 startOk =>
      if mhs30 ≤ 5 then
        let t := onConnectFrom env (a + 1) n
        { attempts := t.attempts + 1, pushes := t.pushes,
          sleeps := sleep_between_attempts :: t.sleeps, success := t.success }
      else if startOk then
        { attempts := 1, pushes := 1, sleeps := [], success := true }
      else
        let t := onConnectFrom env (a + 1) n
        { attempts := t.attempts + 1, pushes := t.pushes + 1,
          sleeps := sleep_between_attempts :: t.sleeps, success := t.success }

/-- Source `coordinator._on_connect`: attempts numbered 1..10. -/
def on_connect (env : ℕ → AttemptOutcome) : ConnectTrace :=
  onConnectFrom env 1 max_attempts

/-! ### Sensor layer (`sensor.py`) -/

/-- The `value_fn` of the Energy Consumed sensor: `lambda d:
d.energy_consumed_kwh`, an unguarded attribute read (`none` = it raises
`AttributeError` because the attribute was never attached). -/
def energy_value_fn (cd : CoordData) : Option ℚ := cd.energy_consumed_kwh

/-- Source `AvalonMinerSensor.native_value` for the energy sensor.  The outer
`Option` is exception behaviour (`none` would be a raised exception); the
inner `Option ℚ` is the returned value (`none` = Python `None`).  The
offline guard returns `None` before `value_fn` runs, and the
`try/except Exception` converts a raised `AttributeError` into `None`. -/
def native_value_energy (data : Option CoordData) : Option (Option ℚ) :=
  match data with
  | none => some none
  | some cd =>
    if cd.data.online = false then some none
    else
      match energy_value_fn cd with
      | some v => some (some v)
      | none => some none

/-! ## Theorems settling the claims -/

/-- C2: frequency-setting raises a validation error — before any network
call, since `.error` is produced without a command string ever being built
— for every four-tuple with a value outside the valid discrete set or not
strictly ascending, and for every valid tuple produces exactly the literal
command whose payload is `f1:f2:f3:f4-0-<board>-0`; in particular
`(325, 337, 350, 362)` encodes to that pattern and `(300, 700, 500, 800)`
fails as non-ascending. -/
theorem set_frequency_validation (f1 f2 f3 f4 b : ℤ) :
    ((¬ (f1 ∈ VALID_MINER_FREQUENCIES ∧ f2 ∈ VALID_MINER_FREQUENCIES ∧
          f3 ∈ VALID_MINER_FREQUENCIES ∧ f4 ∈ VALID_MINER_FREQUENCIES) ∨
        ¬ (f1 < f2 ∧ f2 < f3 ∧ f3 < f4)) →
      ∃ e, set_frequency f1 f2 f3 f4 b = Except.error e)
    ∧ ((f1 ∈ VALID_MINER_FREQUENCIES ∧ f2 ∈ VALID_MINER_FREQUENCIES ∧
          f3 ∈ VALID_MINER_FREQUENCIES ∧ f4 ∈ VALID_MINER_FREQUENCIES) →
        (f1 < f2 ∧ f2 < f3 ∧ f3 < f4) →
        set_frequency f1 f2 f3 f4 b =
          Except.ok (cmd_set_frequency f1 f2 f3 f4 b))
    ∧ cmd_set_frequency f1 f2 f3 f4 b =
        "ascset|0,frequency," ++ toString f1 ++ ":" ++ toString f2 ++ ":" ++
          toString f3 ++ ":" ++ toString f4 ++ "-0-" ++ toString b ++ "-0"
    ∧ cmd_set_frequency 325 337 350 362 9 =
        "ascset|0,frequency,325:337:350:362-0-9-0"
    ∧ (∃ e, set_frequency 300 700 500 800 b = Except.error e) := by
  refine ⟨?_, ?_, rfl, by decide, ?_⟩
  · intro h
    cases hf : [f1, f2, f3, f4].find?
        (fun freq => decide (freq ∉ VALID_MINER_FREQUENCIES)) with
    | some freq =>
      refine ⟨"Frequency " ++ toString freq ++
        " MHz is not a valid Avalon frequency", ?_⟩
      unfold set_frequency
      rw [hf]
    | none =>
      have hall := List.find?_eq_none.mp hf
      have h1 : f1 ∈ VALID_MINER_FREQUENCIES := by simpa using hall f1 (by simp)
      have h2 : f2 ∈ VALID_MINER_FREQUENCIES := by simpa using hall f2 (by simp)
      have h3 : f3 ∈ VALID_MINER_FREQUENCIES := by simpa using hall f3 (by simp)
      have h4 : f4 ∈ VALID_MINER_FREQUENCIES := by simpa using hall f4 (by simp)
      have hna : ¬ (f1 < f2 ∧ f2 < f3 ∧ f3 < f4) := by
        rcases h with h | h
        · exact absurd ⟨h1, h2, h3, h4⟩ h
        · exact h
      refine ⟨"Frequencies must be in strictly ascending order (f1 < f2 < f3 < f4)", ?_⟩
      unfold set_frequency
      rw [hf, if_neg hna]
  · intro hmem hasc
    have hf : [f1, f2, f3, f4].find?
        (fun freq => decide (freq ∉ VALID_MINER_FREQUENCIES)) = none := by
      apply List.find?_eq_none.mpr
      intro x hx
      simp only [List.mem_cons, List.not_mem_nil, or_false] at hx
      rcases hx with rfl | rfl | rfl | rfl <;>
        simp [hmem.1, hmem.2.1, hmem.2.2.1, hmem.2.2.2]
    unfold set_frequency
    rw [hf, if_pos hasc]
  · refine ⟨"Frequencies must be in strictly ascending order (f1 < f2 < f3 < f4)", ?_⟩
    unfold set_frequency
    rw [show [(300 : ℤ), 700, 500, 800].find?
        (fun freq => decide (freq ∉ VALID_MINER_FREQUENCIES)) = none by decide]
    rw [if_neg (by decide)]

/-- C2 witness: the valid profile `(325, 337, 350, 362)` on board 7
encodes successfully via the theorem. -/
theorem set_frequency_validation_witness :
    set_frequency 325 337 350 362 7 =
      Except.ok (cmd_set_frequency 325 337 350 362 7) :=
  (set_frequency_validation 325 337 350 362 7).2.1 (by decide) (by decide)

/-- C3 counterexample: all four of 300, 500, 700, 900 are in
`VALID_MINER_FREQUENCIES` and the tuple is strictly ascending, so encoding
succeeds — it does not fail with a validation error. -/
theorem freq_300_500_700_900_counterexample :
    set_frequency 300 500 700 900 0 =
      Except.ok "ascset|0,frequency,300:500:700:900-0-0-0"
    ∧ (300 : ℤ) ∈ VALID_MINER_FREQUENCIES
    ∧ (500 : ℤ) ∈ VALID_MINER_FREQUENCIES
    ∧ (700 : ℤ) ∈ VALID_MINER_FREQUENCIES
    ∧ (900 : ℤ) ∈ VALID_MINER_FREQUENCIES :=
  ⟨rfl, by decide, by decide, by decide, by decide⟩

/-- C3 amended: encoding `(300, 500, 700, 900)` succeeds for every board
selector, because each value is in the valid discrete set and the values
are strictly ascending. -/
theorem freq_300_500_700_900_amended (b : ℤ) :
    set_frequency 300 500 700 900 b =
      Except.ok (cmd_set_frequency 300 500 700 900 b) :=
  (set_frequency_validation 300 500 700 900 b).2.1 (by decide) (by decide)

/-- C4 counterexample: the token `"1e5"` is numeric-parseable and contains
no decimal point, yet coercion raises (`int("1e5")` is a `ValueError`)
instead of producing an integer — so coercion is not a total function of
the token. -/
theorem coerce_1e5_counterexample :
    _is_numeric "1e5" = true ∧ strContainsChar "1e5" '.' = false ∧
      _coerce "1e5" = none := by
  decide

/-- C4 amended: coercion classifies tokens as the claim says — float when
numeric-parseable with a decimal point, boolean for case-insensitive
true/false, unchanged string otherwise — but on a numeric-parseable token
without a decimal point it applies Python `int()`, which raises on
exponent/infinity/nan forms: coercion is partial, raising exactly on those
tokens. -/
theorem coerce_classification (s : String) :
    (_coerce s = none ↔
      _is_numeric s = true ∧ strContainsChar s '.' = false ∧
        pyIntOfString s = none)
    ∧ (_is_numeric s = true → strContainsChar s '.' = true →
        ∃ f, pyFloatOfString s = some f ∧ _coerce s = some (Scalar.float f))
    ∧ (_is_numeric s = true → strContainsChar s '.' = false →
        ∀ n, pyIntOfString s = some n → _coerce s = some (Scalar.int n))
    ∧ (_is_numeric s = false → _is_bool_string s = true →
        _coerce s = some (Scalar.bool (lowerStr s = "true")))
    ∧ (_is_numeric s = false → _is_bool_string s = false →
        _coerce s = some (Scalar.str s)) := by
  by_cases hn : _is_numeric s
  · by_cases hc : strContainsChar s '.'
    · have hf : ∃ f, pyFloatOfString s = some f := by
        have := hn
        unfold _is_numeric at this
        exact Option.isSome_iff_exists.mp this
      obtain ⟨f, hfe⟩ := hf
      refine ⟨?_, ?_, ?_, ?_, ?_⟩
      · simp [_coerce, hn, hc, hfe]
      · intro _ _
        exact ⟨f, hfe, by simp [_coerce, hn, hc, hfe]⟩
      · intro _ hcon
        rw [hc] at hcon
        cases hcon
      · intro hfalse
        rw [hn] at hfalse
        cases hfalse
      · intro hfalse
        rw [hn] at hfalse
        cases hfalse
    · refine ⟨?_, ?_, ?_, ?_, ?_⟩
      · cases hi : pyIntOfString s with
        | some n => simp [_coerce, hn, hc, hi]
        | none => simp [_coerce, hn, hc, hi]
      · intro _ hcon
        rw [eq_false_of_ne_true hc] at hcon
        cases hcon
      · intro _ _ n hi
        simp [_coerce, hn, hc, hi]
      · intro hfalse
        rw [hn] at hfalse
        cases hfalse
      · intro hfalse
        rw [hn] at hfalse
        cases hfalse
  · refine ⟨?_, ?_, ?_, ?_, ?_⟩
    · by_cases hb : _is_bool_string s
      · simp [_coerce, hn, hb]
      · simp [_coerce, hn, hb]
    · intro hcon
      rw [eq_false_of_ne_true hn] at hcon
      cases hcon
    · intro hcon
      rw [eq_false_of_ne_true hn] at hcon
      cases hcon
    · intro _ hb
      simp [_coerce, hn, hb]
    · intro _ hb
      simp [_coerce, hn, hb]

/-- C4 witness: concrete instances of each classification branch, obtained
through the classification theorem. -/
theorem coerce_classification_witness :
    (∃ f, pyFloatOfString "3.5" = some f ∧
      _coerce "3.5" = some (Scalar.float f))
    ∧ _coerce "42" = some (Scalar.int 42)
    ∧ _coerce "FALSE" = some (Scalar.bool false)
    ∧ _coerce "80%" = some (Scalar.str "80%") := by
  refine ⟨(coerce_classification "3.5").2.1 (by decide) (by decide),
    (coerce_classification "42").2.2.1 (by decide) (by decide) 42 (by decide),
    ?_,
    (coerce_classification "80%").2.2.2.2 (by decide) (by decide)⟩
  have h := (coerce_classification "FALSE").2.2.2.1 (by decide) (by decide)
  exact h.trans (by decide)

/-- C5 counterexample: in the token `k=a=b` the raw-value is the second
`=`-separated field `"a"`, not everything after the first `=` (`"a=b"`):
the text after the second `=` is discarded. -/
theorem token_split_counterexample :
    parse_miner_response "k=a=b" =
      some [[("k", Value.scalar (Scalar.str "a"))]]
    ∧ parse_miner_response "k=a=b" ≠
        some [[("k", Value.scalar (Scalar.str "a=b"))]]
    ∧ splitCD "k=a=b" '=' = ["k", "a", "b"] := by
  decide

/-- C5 amended: each comma-separated token is split on every `=` outside
brackets; the key is the first field and the raw-value the second; any
further fields are ignored; a token with fewer than two fields, or whose
second field is empty, contributes no entry. -/
theorem token_split_amended (record : Record) (t0 t1 : String)
    (rest : List String) :
    processTokenFields record (t0 :: t1 :: rest) =
      processTokenFields record [t0, t1]
    ∧ (t1 = "" → processTokenFields record (t0 :: t1 :: rest) = some record)
    ∧ (∀ toks : List String, toks.length < 2 →
        processTokenFields record toks = some record)
    ∧ (∀ subpart : String,
        processToken record subpart =
          processTokenFields record (splitCD subpart '=')) := by
  refine ⟨rfl, ?_, ?_, fun _ => rfl⟩
  · intro h
    subst h
    simp [processTokenFields]
  · intro toks h
    match toks with
    | [] => rfl
    | [_] => rfl
    | _ :: _ :: _ => exact absurd h (by simp)

/-- C5 witness: an empty raw-value and a key-only token each leave the
record unchanged, via the amended theorem. -/
theorem token_split_amended_witness :
    processTokenFields [] ["k", "", "junk"] = some []
    ∧ processTokenFields [] ["lone"] = some [] :=
  ⟨(token_split_amended [] "k" "" ["junk"]).2.1 rfl,
   (token_split_amended [] "x" "y" []).2.2.1 ["lone"] (by decide)⟩

/-- After any tick the recorded online flag equals the probe result. -/
theorem tick_was_online (ip : String) (auto : Bool) (st : CoordState)
    (inp : TickInput) :
    (tick ip auto st inp).1.was_online = inp.online := by
  rcases inp with ⟨o, now, f⟩
  cases o with
  | false => simp [tick]
  | true =>
    cases f with
    | none => simp [tick]
    | some d => cases h : st.last_energy_ts <;> simp [tick, h]

/-- The sequencer is invoked on a tick exactly when the flag is set, the
probe succeeded, and the previous recorded state was offline. -/
theorem tick_invoked (ip : String) (auto : Bool) (st : CoordState)
    (inp : TickInput) :
    (tick ip auto st inp).2.1 = (auto && inp.online && !st.was_online) := by
  rcases inp with ⟨o, now, f⟩
  cases o with
  | false => simp [tick]
  | true =>
    cases f with
    | none => simp [tick, Bool.and_comm]
    | some d =>
      cases h : st.last_energy_ts <;> simp [tick, h, Bool.and_comm]

/-- Flag trace of a tick run, from an arbitrary starting state. -/
theorem runTicks_flags (ip : String) (auto : Bool) (st : CoordState)
    (inputs : List TickInput) (i : ℕ) (inp : TickInput)
    (h : inputs.get? i = some inp) :
    (runTicks ip auto st inputs).2.get? i =
      some (auto && inp.online && !(prevOnline st.was_online inputs i)) := by
  induction inputs generalizing st i with
  | nil => simp at h
  | cons x xs ih =>
    cases i with
    | zero =>
      rw [List.get?_cons_zero] at h
      injection h with h
      show ((tick ip auto st x).2.1 ::
        (runTicks ip auto (tick ip auto st x).1 xs).2).get? 0 = _
      rw [List.get?_cons_zero, tick_invoked, h]
      rfl
    | succ j =>
      rw [List.get?_cons_succ] at h
      have ihj := ih (tick ip auto st x).1 j h
      have hprev : prevOnline (tick ip auto st x).1.was_online xs j =
          prevOnline st.was_online (x :: xs) (j + 1) := by
        cases j with
        | zero => simp [prevOnline, tick_was_online]
        | succ k => simp [prevOnline]
      rw [hprev] at ihj
      show ((tick ip auto st x).2.1 ::
        (runTicks ip auto (tick ip auto st x).1 xs).2).get? (j + 1) = _
      rw [List.get?_cons_succ, ihj]

/-- C6: starting from the constructor state (recorded as offline), the
sequencer is invoked on tick `i` iff the auto-start flag is set, tick `i`
is reachable, and the previous tick (or the initial state, for tick 0) was
unreachable; in particular three unreachable ticks followed by three
reachable ones invoke the sequencer exactly once, on the first reachable
tick, and never again while the device stays reachable. -/
theorem sequencer_invocation_edges (ip : String) (auto : Bool)
    (inputs : List TickInput) (i : ℕ) (inp : TickInput)
    (h : inputs.get? i = some inp) :
    (runTicks ip auto initialCoordState inputs).2.get? i =
      some (auto && inp.online && !(prevOnline false inputs i))
    ∧ (runTicks "203.0.113.5" auto initialCoordState
        [⟨false, 0, none⟩, ⟨false, 60, none⟩, ⟨false, 120, none⟩,
         ⟨true, 180, some {}⟩, ⟨true, 240, some {}⟩,
         ⟨true, 300, some {}⟩]).2 =
      [false, false, false, auto, false, false] := by
  constructor
  · exact runTicks_flags ip auto initialCoordState inputs i inp h
  · cases auto <;> decide

/-- C6 witness: three offline ticks then one online tick, auto-start set —
tick 3 invokes the sequencer. -/
theorem sequencer_invocation_edges_witness :
    (runTicks "203.0.113.5" true initialCoordState
      [⟨false, 0, none⟩, ⟨false, 60, none⟩, ⟨false, 120, none⟩,
       ⟨true, 180, some {}⟩]).2.get? 3 = some true := by
  have h := (sequencer_invocation_edges "203.0.113.5" true
    [⟨false, 0, none⟩, ⟨false, 60, none⟩, ⟨false, 120, none⟩,
     ⟨true, 180, some {}⟩] 3 ⟨true, 180, some {}⟩ rfl).1
  rw [h]
  decide

/-- C1: on a successful online poll, a missing baseline timestamp means the
sample only establishes the baseline (no energy added); with a baseline and
strictly positive power, energy grows by `power * elapsed_hours / 1000`;
with non-positive power nothing is added; the baseline timestamp is always
advanced.  In particular 1000 W samples at t=0, t=3600 s, t=7200 s yield
1 kWh after the second sample (not 2) and 2 kWh after the third. -/
theorem energy_accumulation (ip : String) (auto : Bool) (st : CoordState)
    (inp : TickInput) (d : MinerData)
    (hon : inp.online = true) (hf : inp.fetch = some d) :
    (tick ip auto st inp).1.last_energy_ts = some inp.now
    ∧ (st.last_energy_ts = none →
        (tick ip auto st inp).1.energy_kwh = st.energy_kwh)
    ∧ (∀ t, st.last_energy_ts = some t → 0 < d.output_power_w →
        (tick ip auto st inp).1.energy_kwh =
          st.energy_kwh +
            (d.output_power_w : ℚ) * ((inp.now - t) / 3600) / 1000)
    ∧ (∀ t, st.last_energy_ts = some t → d.output_power_w ≤ 0 →
        (tick ip auto st inp).1.energy_kwh = st.energy_kwh)
    ∧ (runTicks ip auto initialCoordState
        [⟨true, 0, some { output_power_w := 1000 }⟩,
         ⟨true, 3600, some { output_power_w := 1000 }⟩]).1.energy_kwh = 1
    ∧ (runTicks ip auto initialCoordState
        [⟨true, 0, some { output_power_w := 1000 }⟩,
         ⟨true, 3600, some { output_power_w := 1000 }⟩,
         ⟨true, 7200, some { output_power_w := 1000 }⟩]).1.energy_kwh = 2 := by
  rcases inp with ⟨o, now, f⟩
  simp only at hon hf
  subst hon
  subst hf
  refine ⟨?_, ?_, ?_, ?_, ?_, ?_⟩
  · cases h : st.last_energy_ts <;> simp [tick, h]
  · intro h
    simp [tick, h]
  · intro t h hp
    simp [tick, h, hp]
  · intro t h hp
    have hnp : ¬ 0 < d.output_power_w := not_lt.mpr hp
    simp [tick, h, hnp]
  · norm_num [runTicks, tick, initialCoordState]
  · norm_num [runTicks, tick, initialCoordState]

/-- C1 witness: the concrete three-sample scenario, through the theorem at
the first sample's inputs. -/
theorem energy_accumulation_witness :
    (runTicks "198.51.100.7" true initialCoordState
      [⟨true, 0, some { output_power_w := 1000 }⟩,
       ⟨true, 3600, some { output_power_w := 1000 }⟩]).1.energy_kwh = 1 :=
  (energy_accumulation "198.51.100.7" true initialCoordState
    ⟨true, 0, some { output_power_w := 1000 }⟩ { output_power_w := 1000 }
    rfl rfl).2.2.2.2.1

/-- Step equation: a raised `query_summary` sleeps and retries. -/
theorem onConnectFrom_succ_fail (env : ℕ → AttemptOutcome) (a n : ℕ)
    (h : env a = AttemptOutcome.summaryFail) :
    onConnectFrom env a (n + 1) =
      { attempts := (onConnectFrom env (a + 1) n).attempts + 1,
        pushes := (onConnectFrom env (a + 1) n).pushes,
        sleeps := sleep_between_attempts ::
          (onConnectFrom env (a + 1) n).sleeps,
        success := (onConnectFrom env (a + 1) n).success } := by
  conv_lhs => unfold onConnectFrom
  simp [h]

/-- Step equation: a low hashrate sleeps and retries without a push. -/
theorem onConnectFrom_succ_low (env : ℕ → AttemptOutcome) (a n : ℕ)
    (m : ℚ) (ok : Bool) (h : env a = AttemptOutcome.summary m ok)
    (hm : m ≤ 5) :
    onConnectFrom env a (n + 1) =
      { attempts := (onConnectFrom env (a + 1) n).attempts + 1,
        pushes := (onConnectFrom env (a + 1) n).pushes,
        sleeps := sleep_between_attempts ::
          (onConnectFrom env (a + 1) n).sleeps,
        success := (onConnectFrom env (a + 1) n).success } := by
  conv_lhs => unfold onConnectFrom
  simp [h, hm]

/-- Step equation: a successful push ends the sequence immediately. -/
theorem onConnectFrom_succ_success (env : ℕ → AttemptOutcome) (a n : ℕ)
    (m : ℚ) (h : env a = AttemptOutcome.summary m true) (hm : ¬ m ≤ 5) :
    onConnectFrom env a (n + 1) =
      { attempts := 1, pushes := 1, sleeps := [], success := true } := by
  conv_lhs => unfold onConnectFrom
  simp [h, hm]

/-- Step equation: a failed push sleeps and retries. -/
theorem onConnectFrom_succ_pushfail (env : ℕ → AttemptOutcome) (a n : ℕ)
    (m : ℚ) (h : env a = AttemptOutcome.summary m false) (hm : ¬ m ≤ 5) :
    onConnectFrom env a (n + 1) =
      { attempts := (onConnectFrom env (a + 1) n).attempts + 1,
        pushes := (onConnectFrom env (a + 1) n).pushes + 1,
        sleeps := sleep_between_attempts ::
          (onConnectFrom env (a + 1) n).sleeps,
        success := (onConnectFrom env (a + 1) n).success } := by
  conv_lhs => unfold onConnectFrom
  simp [h, hm]

/-- Every inter-attempt delay recorded by the sequencer loop is the
configured 30-second value. -/
theorem onConnectFrom_sleeps (env : ℕ → AttemptOutcome) :
    ∀ n a s, s ∈ (onConnectFrom env a n).sleeps →
      s = sleep_between_attempts := by
  intro n
  induction n with
  | zero =>
    intro a s hs
    simp [onConnectFrom] at hs
  | succ k ih =>
    intro a s hs
    cases henv : env a with
    | summaryFail =>
      rw [onConnectFrom_succ_fail env a k henv] at hs
      rcases List.mem_cons.mp hs with rfl | hmem
      · rfl
      · exact ih (a + 1) s hmem
    | summary m ok =>
      by_cases hm : m ≤ 5
      · rw [onConnectFrom_succ_low env a k m ok henv hm] at hs
        rcases List.mem_cons.mp hs with rfl | hmem
        · rfl
        · exact ih (a + 1) s hmem
      · cases ok with
        | true =>
          rw [onConnectFrom_succ_success env a k m henv hm] at hs
          simp at hs
        | false =>
          rw [onConnectFrom_succ_pushfail env a k m henv hm] at hs
          rcases List.mem_cons.mp hs with rfl | hmem
          · rfl
          · exact ih (a + 1) s hmem

/-- If every attempt in the window observes a 30-second hashrate of 0, the
loop runs all its attempts, pushes nothing, sleeps 30 s after each attempt
and ends unsuccessfully (without raising — the function is total). -/
theorem onConnectFrom_allLow (env : ℕ → AttemptOutcome) :
    ∀ n a, (∀ k, a ≤ k → k < a + n →
        ∃ ok, env k = AttemptOutcome.summary 0 ok) →
      onConnectFrom env a n =
        { attempts := n, pushes := 0,
          sleeps := List.replicate n sleep_between_attempts,
          success := false } := by
  intro n
  induction n with
  | zero => intro a _; rfl
  | succ k ih =>
    intro a h
    obtain ⟨ok, hok⟩ := h a (le_refl a) (by omega)
    rw [onConnectFrom_succ_low env a k 0 ok hok (by norm_num)]
    rw [ih (a + 1) (fun j hj1 hj2 => h j (by omega) (by omega))]
    rfl

/-- C7: the sequencer is a bounded loop of exactly 10 attempts with a fixed
30-second inter-attempt delay; a hashrate at or below the threshold 5 makes
the attempt wait and retry without a configuration push; if every attempt
sees hashrate 0 it performs exactly 10 attempts and returns without
raising; a successful push ends the sequence immediately. -/
theorem sequencer_retry (env : ℕ → AttemptOutcome) :
    (max_attempts = 10 ∧ sleep_between_attempts = 30)
    ∧ ((∀ a, 1 ≤ a → a ≤ 10 → ∃ ok, env a = AttemptOutcome.summary 0 ok) →
        on_connect env =
          { attempts := 10, pushes := 0, sleeps := List.replicate 10 30,
            success := false })
    ∧ (∀ a n m ok, env a = AttemptOutcome.summary m ok → 5 < m →
        ok = true →
        onConnectFrom env a (n + 1) =
          { attempts := 1, pushes := 1, sleeps := [], success := true })
    ∧ (∀ s, s ∈ (on_connect env).sleeps → s = 30) := by
  refine ⟨⟨rfl, rfl⟩, ?_, ?_, ?_⟩
  · intro h
    exact onConnectFrom_allLow env 10 1
      (fun k hk1 hk2 => h k hk1 (by omega))
  · intro a n m ok henv hm hok
    subst hok
    exact onConnectFrom_succ_success env a n m henv (not_le.mpr hm)
  · intro s hs
    exact onConnectFrom_sleeps env max_attempts 1 s hs

/-- C7 witness: an environment whose summary always reports hashrate 0 —
exactly 10 attempts, no pushes, ten 30-second delays, no success. -/
theorem sequencer_retry_witness :
    on_connect (fun _ => AttemptOutcome.summary 0 true) =
      { attempts := 10, pushes := 0, sleeps := List.replicate 10 30,
        success := false } :=
  (sequencer_retry (fun _ => AttemptOutcome.summary 0 true)).2.1
    (fun _ _ _ => ⟨true, rfl⟩)

/-- Field equations of the straight-line assembly stage: failed sub-queries
leave defaults, successful ones populate their fields. -/
theorem assembleBase_spec (ip : String) (qr : QueryResults) :
    (assembleBase ip qr).ip = ip
    ∧ (assembleBase ip qr).online = true
    ∧ (assembleBase ip qr).pools = qr.pools.getD []
    ∧ (assembleBase ip qr).controller = qr.version.getD {}
    ∧ (assembleBase ip qr).output_power_w = (qr.power.getD {}).output_power
    ∧ (qr.power = none → (assembleBase ip qr).hash_board_voltage_mv = 0)
    ∧ (∀ p, qr.power = some p →
        (assembleBase ip qr).hash_board_voltage_mv =
          (p.hash_board_voltage : ℚ) / 100)
    ∧ (assembleBase ip qr).output_current_a = (qr.power.getD {}).output_current
    ∧ (assembleBase ip qr).mhs_av = (qr.summary.getD {}).mhs_av
    ∧ (assembleBase ip qr).mhs_30s = (qr.summary.getD {}).mhs_30s
    ∧ (assembleBase ip qr).mhs_1m = (qr.summary.getD {}).mhs_1m
    ∧ (assembleBase ip qr).accepted_shares = (qr.summary.getD {}).accepted
    ∧ (assembleBase ip qr).rejected_shares = (qr.summary.getD {}).rejected
    ∧ (assembleBase ip qr).hardware_errors =
        (qr.summary.getD {}).hardware_errors
    ∧ (assembleBase ip qr).best_share = (qr.summary.getD {}).best_share
    ∧ (assembleBase ip qr).pool_rejected_pct =
        (qr.summary.getD {}).pool_rejected_pct
    ∧ (assembleBase ip qr).uptime_seconds = (qr.summary.getD {}).elapsed
    ∧ (assembleBase ip qr).hashboards = []
    ∧ (assembleBase ip qr).fan1_rpm = 0
    ∧ (assembleBase ip qr).fan2_rpm = 0
    ∧ (assembleBase ip qr).fan_duty_pct = 0 := by
  rcases qr with ⟨v, s, det, pw, pl⟩
  cases v <;> cases pw <;> cases pl <;> simp [assembleBase]

/-- A snapshot returned by `fetch_full_snapshot` agrees with the assembly
stage on every field the estats post-processing does not touch, and is the
assembly stage itself when the extended-details query failed. -/
theorem fetch_preserves_base (ip : String) (qr : QueryResults)
    (d : MinerData) (h : fetch_full_snapshot ip qr = some d) :
    d.ip = (assembleBase ip qr).ip
    ∧ d.online = (assembleBase ip qr).online
    ∧ d.pools = (assembleBase ip qr).pools
    ∧ d.controller = (assembleBase ip qr).controller
    ∧ d.output_power_w = (assembleBase ip qr).output_power_w
    ∧ d.hash_board_voltage_mv = (assembleBase ip qr).hash_board_voltage_mv
    ∧ d.output_current_a = (assembleBase ip qr).output_current_a
    ∧ d.mhs_av = (assembleBase ip qr).mhs_av
    ∧ d.mhs_30s = (assembleBase ip qr).mhs_30s
    ∧ d.mhs_1m = (assembleBase ip qr).mhs_1m
    ∧ d.accepted_shares = (assembleBase ip qr).accepted_shares
    ∧ d.rejected_shares = (assembleBase ip qr).rejected_shares
    ∧ d.hardware_errors = (assembleBase ip qr).hardware_errors
    ∧ d.best_share = (assembleBase ip qr).best_share
    ∧ d.pool_rejected_pct = (assembleBase ip qr).pool_rejected_pct
    ∧ d.uptime_seconds = (assembleBase ip qr).uptime_seconds
    ∧ (qr.details = none → d = assembleBase ip qr) := by
  unfold fetch_full_snapshot at h
  by_cases hdet : qr.details.getD [] = []
  · rw [if_pos hdet] at h
    injection h with h
    subst h
    refine ⟨rfl, rfl, rfl, rfl, rfl, rfl, rfl, rfl, rfl, rfl, rfl, rfl,
      rfl, rfl, rfl, rfl, fun _ => rfl⟩
  · rw [if_neg hdet] at h
    cases hpar : parse_hashboards_and_temps (qr.details.getD [])
        (qr.summary.getD {}) with
    | none => simp [hpar] at h
    | some hb =>
      cases hfan : parse_fan_data (qr.details.getD []) with
      | none => simp [hpar, hfan] at h
      | some fans =>
        simp only [hpar, hfan, Option.some.injEq] at h
        subst h
        refine ⟨rfl, rfl, rfl, rfl, rfl, rfl, rfl, rfl, rfl, rfl, rfl, rfl,
          rfl, rfl, rfl, rfl, ?_⟩
        intro hn
        rw [hn] at hdet
        simp at hdet

/-- C8: snapshot assembly never raises for sub-query failures — every
combination of failed sub-queries still yields a snapshot with the failed
portions defaulted (in particular a failed pool-list query yields an empty
pool list), while the fields sourced from succeeding queries are
populated, the snapshot carries the address, and it is flagged online. -/
theorem snapshot_subquery_failure (ip : String) (qr : QueryResults) :
    (qr.details = none → (fetch_full_snapshot ip qr).isSome = true)
    ∧ (∀ d, fetch_full_snapshot ip qr = some d →
        d.ip = ip ∧ d.online = true
        ∧ (qr.pools = none → d.pools = [])
        ∧ (∀ ps, qr.pools = some ps → d.pools = ps)
        ∧ (qr.version = none → d.controller = {})
        ∧ (∀ v, qr.version = some v → d.controller = v)
        ∧ (qr.power = none → d.output_power_w = 0 ∧
            d.hash_board_voltage_mv = 0 ∧ d.output_current_a = 0)
        ∧ (∀ p, qr.power = some p →
            d.output_power_w = p.output_power ∧
            d.output_current_a = p.output_current)
        ∧ (qr.summary = none → d.mhs_av = 0 ∧ d.accepted_shares = 0 ∧
            d.uptime_seconds = 0)
        ∧ (∀ s, qr.summary = some s →
            d.mhs_av = s.mhs_av ∧ d.mhs_30s = s.mhs_30s ∧
            d.mhs_1m = s.mhs_1m ∧ d.accepted_shares = s.accepted ∧
            d.rejected_shares = s.rejected ∧
            d.hardware_errors = s.hardware_errors ∧
            d.best_share = s.best_share ∧
            d.pool_rejected_pct = s.pool_rejected_pct ∧
            d.uptime_seconds = s.elapsed)
        ∧ (qr.details = none → d.hashboards = [] ∧ d.fan1_rpm = 0 ∧
            d.fan2_rpm = 0 ∧ d.fan_duty_pct = 0)) := by
  constructor
  · intro hdet
    have h : qr.details.getD [] = [] := by rw [hdet]; rfl
    unfold fetch_full_snapshot
    rw [if_pos h]
    rfl
  · intro d hd
    obtain ⟨hip, hon, hpl, hctl, hpw, hv, hcur, hav, h30, h1m, hacc, hrej,
      hhw, hbest, hpct, hup, hdetall⟩ := fetch_preserves_base ip qr d hd
    obtain ⟨bip, bon, bpl, bctl, bpw, bvn, bvs, bcur, bav, b30, b1m, bacc,
      brej, bhw, bbest, bpct, bup, bhb, bf1, bf2, bfd⟩ :=
      assembleBase_spec ip qr
    refine ⟨hip.trans bip, hon.trans bon, ?_, ?_, ?_, ?_, ?_, ?_, ?_, ?_, ?_⟩
    · intro h
      rw [hpl, bpl, h]
      rfl
    · intro ps h
      rw [hpl, bpl, h]
      rfl
    · intro h
      rw [hctl, bctl, h]
      rfl
    · intro v h
      rw [hctl, bctl, h]
      rfl
    · intro h
      refine ⟨?_, ?_, ?_⟩
      · rw [hpw, bpw, h]; rfl
      · rw [hv]; exact bvn h
      · rw [hcur, bcur, h]; rfl
    · intro p h
      constructor
      · rw [hpw, bpw, h]; rfl
      · rw [hcur, bcur, h]; rfl
    · intro h
      refine ⟨?_, ?_, ?_⟩
      · rw [hav, bav, h]; rfl
      · rw [hacc, bacc, h]; rfl
      · rw [hup, bup, h]; rfl
    · intro s h
      refine ⟨?_, ?_, ?_, ?_, ?_, ?_, ?_, ?_, ?_⟩
      · rw [hav, bav, h]; rfl
      · rw [h30, b30, h]; rfl
      · rw [h1m, b1m, h]; rfl
      · rw [hacc, bacc, h]; rfl
      · rw [hrej, brej, h]; rfl
      · rw [hhw, bhw, h]; rfl
      · rw [hbest, bbest, h]; rfl
      · rw [hpct, bpct, h]; rfl
      · rw [hup, bup, h]; rfl
    · intro h
      have hde := hdetall h
      subst hde
      exact ⟨bhb, bf1, bf2, bfd⟩

/-- A concrete estats record with two boards, used by the C8 witness. -/
def sampleDetails : Record :=
  [("MM ID0", Value.nested
    [("SYSTEMSTATU", NVal.arr [Scalar.str "Work: In Work", Scalar.int 2]),
     ("SF0", NVal.arr [Scalar.int 325, Scalar.int 337, Scalar.int 350,
        Scalar.int 362]),
     ("SF1", NVal.arr [Scalar.int 325, Scalar.int 337, Scalar.int 350,
        Scalar.int 362]),
     ("Temp", NVal.scalar (Scalar.int 31)),
     ("TAvg", NVal.scalar (Scalar.int 74)),
     ("TMax", NVal.scalar (Scalar.int 89)),
     ("SoftOFF", NVal.scalar (Scalar.int 0)),
     ("WORKMODE", NVal.scalar (Scalar.int 1)),
     ("Fan1", NVal.scalar (Scalar.int 3842)),
     ("Fan2", NVal.scalar (Scalar.int 3756)),
     ("FanR", NVal.scalar (Scalar.str "80%"))])]

/-- The C8 witness scenario: every sub-query succeeds except the pool
list. -/
def samplePoolFailQR : QueryResults :=
  { version := some { product := "AvalonMiner 1066", model := 1066 }
    summary := some { elapsed := 5533, accepted := 7, best_share := 912 }
    details := some sampleDetails
    power := some ⟨0, 1220, 1314, 140, 1839, 1308⟩
    pools := none }

/-- C8 witness: with only the pool-list query failing, the snapshot exists,
has an empty pool list, and is populated from the other queries. -/
theorem snapshot_subquery_failure_witness :
    ∃ d, fetch_full_snapshot "203.0.113.17" samplePoolFailQR = some d
      ∧ d.pools = []
      ∧ d.online = true
      ∧ d.controller = { product := "AvalonMiner 1066", model := 1066 }
      ∧ d.output_power_w = 1839
      ∧ d.uptime_seconds = 5533
      ∧ d.hashboards ≠ [] := by
  rcases hf : fetch_full_snapshot "203.0.113.17" samplePoolFailQR with _ | d
  · have : (fetch_full_snapshot "203.0.113.17" samplePoolFailQR).isSome =
        true := by rfl
    rw [hf] at this
    cases this
  · have h := (snapshot_subquery_failure "203.0.113.17" samplePoolFailQR).2
      d hf
    refine ⟨d, rfl, h.2.2.1 rfl, h.2.1, h.2.2.2.2.2.1
      { product := "AvalonMiner 1066", model := 1066 } rfl,
      (h.2.2.2.2.2.2.2.1 _ rfl).1, ?_, ?_⟩
    · exact ((h.2.2.2.2.2.2.2.2.2.1) _ rfl).2.2.2.2.2.2.2.2
    · have hmap : (fetch_full_snapshot "203.0.113.17" samplePoolFailQR).map
          MinerData.hashboards =
          some [{ board_id := 0, frequencies := [325, 337, 350, 362],
                  hashrate_mhs := 0 },
                { board_id := 1, frequencies := [325, 337, 350, 362],
                  hashrate_mhs := 0 }] := rfl
      rw [hf] at hmap
      simp only [Option.map_some', Option.some.injEq] at hmap
      rw [hmap]
      simp

/-- Source `int()` applied to a list of already-integer scalars succeeds and is
the identity. -/
theorem traverseOpt_intCastStrict_ints (l : List ℤ) :
    traverseOpt intCastStrict (l.map Scalar.int) = some l := by
  induction l with
  | nil => rfl
  | cons x xs ih =>
    simp [traverseOpt, intCastStrict, intCast, ih]

/-- C9: the raw board voltage is divided by 100 in the snapshot; the `PS`
list is read from the structured `Msg` dict, or — when `Msg` is a plain
string — recovered by extracting the bracketed `PS[...]` pattern, both
forms yielding the same positionally-built, zero-defaulted
`HashPowerState`; in particular the documented diagnostic string yields
the same state as the structured list `[0, 1220, 1314, 140, 1839, 1308]`. -/
theorem electrical_state_parsing (ip : String) (qr : QueryResults)
    (p : HashPowerState) :
    (∀ d, fetch_full_snapshot ip qr = some d → qr.power = some p →
        d.hash_board_voltage_mv = (p.hash_board_voltage : ℚ) / 100)
    ∧ (∀ l : List ℤ,
        psOfMsg (Value.nested [("PS", NVal.arr (l.map Scalar.int))]) =
          some l)
    ∧ (∀ (s : String) (inner : List Char) (l : List ℤ),
        extractPS s.data = some inner →
        traverseOpt pyIntOfString (splitWs inner) = some l →
        query_hash_power_state [[("Msg", Value.scalar (Scalar.str s))]] =
          query_hash_power_state
            [[("Msg", Value.nested [("PS", NVal.arr (l.map Scalar.int))])]])
    ∧ (∀ (records : List Record) (ps : List ℤ),
        psOfMsg ((getKey (records.head?.getD []) "Msg").getD
            (Value.nested [])) = some ps →
        query_hash_power_state records =
          some { error := psGet ps 0, controller_voltage := psGet ps 1,
                 hash_board_voltage := psGet ps 2,
                 output_current := psGet ps 3, output_power := psGet ps 4,
                 voltage_setting := psGet ps 5 })
    ∧ query_hash_power_state
        [[("Msg", Value.scalar
          (Scalar.str "ASC 0 set info: PS[0 1220 1314 140 1839 1308]"))]] =
      some { error := 0, controller_voltage := 1220,
             hash_board_voltage := 1314, output_current := 140,
             output_power := 1839, voltage_setting := 1308 } := by
  have hstruct : ∀ l : List ℤ,
      psOfMsg (Value.nested [("PS", NVal.arr (l.map Scalar.int))]) =
        some l := by
    intro l
    have h0 : psOfMsg (Value.nested [("PS", NVal.arr (l.map Scalar.int))]) =
        traverseOpt intCastStrict (l.map Scalar.int) := rfl
    rw [h0, traverseOpt_intCastStrict_ints]
  refine ⟨?_, hstruct, ?_, ?_, by decide⟩
  · intro d hd hp
    have hbase := (fetch_preserves_base ip qr d hd).2.2.2.2.2.1
    have hval := (assembleBase_spec ip qr).2.2.2.2.2.2.1 p hp
    exact hbase.trans hval
  · intro s inner l hx hl
    have htex : psOfMsg (Value.scalar (Scalar.str s)) = some l := by
      have h0 : psOfMsg (Value.scalar (Scalar.str s)) =
          (match extractPS s.data with
           | none => some []
           | some inner => traverseOpt pyIntOfString (splitWs inner)) := rfl
      rw [h0, hx]
      exact hl
    have h1 : query_hash_power_state
        [[("Msg", Value.scalar (Scalar.str s))]] =
        (psOfMsg (Value.scalar (Scalar.str s))).map (fun ps =>
          { error := psGet ps 0, controller_voltage := psGet ps 1,
            hash_board_voltage := psGet ps 2, output_current := psGet ps 3,
            output_power := psGet ps 4,
            voltage_setting := psGet ps 5 }) := rfl
    have h2 : query_hash_power_state
        [[("Msg", Value.nested [("PS", NVal.arr (l.map Scalar.int))])]] =
        (psOfMsg (Value.nested [("PS",
          NVal.arr (l.map Scalar.int))])).map (fun ps =>
          { error := psGet ps 0, controller_voltage := psGet ps 1,
            hash_board_voltage := psGet ps 2, output_current := psGet ps 3,
            output_power := psGet ps 4,
            voltage_setting := psGet ps 5 }) := rfl
    rw [h1, h2, htex, hstruct l]
  · intro records ps h
    have h0 : query_hash_power_state records =
        (psOfMsg ((getKey (records.head?.getD []) "Msg").getD
          (Value.nested []))).map (fun ps =>
          { error := psGet ps 0, controller_voltage := psGet ps 1,
            hash_board_voltage := psGet ps 2, output_current := psGet ps 3,
            output_power := psGet ps 4,
            voltage_setting := psGet ps 5 }) := rfl
    rw [h0, h]
    rfl

/-- C9 witness: the structured record with the documented `PS` values
parses to the positionally-built state, via the theorem. -/
theorem electrical_state_parsing_witness :
    query_hash_power_state
      [[("Msg", Value.nested [("PS", NVal.arr
        [Scalar.int 0, Scalar.int 1220, Scalar.int 1314, Scalar.int 140,
         Scalar.int 1839, Scalar.int 1308])])]] =
      some { error := 0, controller_voltage := 1220,
             hash_board_voltage := 1314, output_current := 140,
             output_power := 1839, voltage_setting := 1308 } := by
  have h := (electrical_state_parsing "198.51.100.3" {} {}).2.2.2.1
    [[("Msg", Value.nested [("PS", NVal.arr
      [Scalar.int 0, Scalar.int 1220, Scalar.int 1314, Scalar.int 140,
       Scalar.int 1839, Scalar.int 1308])])]]
    [0, 1220, 1314, 140, 1839, 1308] (by decide)
  rw [h]
  decide

/-- C10 counterexample: on the offline stub the attribute read alone would
raise (`energy_value_fn` is `none`), but the sensor's `native_value`
returns the default `None` — first through its offline guard, and its
`try/except` would catch the read anyway — so the read does not fail. -/
theorem energy_attr_counterexample :
    energy_value_fn ⟨{ ip := "203.0.113.9", online := false }, none⟩ = none
    ∧ native_value_energy
        (some ⟨{ ip := "203.0.113.9", online := false }, none⟩) = some none
    ∧ (tick "203.0.113.9" true initialCoordState ⟨false, 0, none⟩).2.2 =
        some ⟨{ ip := "203.0.113.9", online := false }, none⟩ :=
  ⟨rfl, rfl, rfl⟩

/-- C10 amended: `MinerData` declares no cumulative-energy field — the
coordinator models the dynamically attached attribute separately — and the
attribute is present exactly on snapshots of successful online polls, so
offline stubs lack it; but the sensor layer never fails on such a
snapshot: `native_value` guards on the offline flag and wraps the read in
`except Exception`, returning `None` instead. -/
theorem energy_attr_handling (ip : String) (auto : Bool) (st : CoordState)
    (inp : TickInput) :
    (inp.online = false →
      (tick ip auto st inp).2.2 =
        some ⟨{ ip := ip, online := false }, none⟩)
    ∧ (∀ cd, (tick ip auto st inp).2.2 = some cd →
        (cd.energy_consumed_kwh = none ↔ inp.online = false))
    ∧ (∀ data, (native_value_energy data).isSome = true)
    ∧ native_value_energy
        (some ⟨{ ip := ip, online := false }, none⟩) = some none := by
  refine ⟨?_, ?_, ?_, rfl⟩
  · intro h
    rcases inp with ⟨o, now, f⟩
    simp only at h
    subst h
    simp [tick]
  · intro cd hcd
    rcases inp with ⟨o, now, f⟩
    cases o with
    | false =>
      simp [tick] at hcd
      simp [← hcd]
    | true =>
      cases f with
      | none => simp [tick] at hcd
      | some d =>
        cases h : st.last_energy_ts with
        | none =>
          simp [tick, h] at hcd
          simp [← hcd]
        | some t =>
          simp [tick, h] at hcd
          simp [← hcd]
  · intro data
    cases data with
    | none => rfl
    | some cd =>
      have h0 : native_value_energy (some cd) =
          (if cd.data.online = false then some none
           else
             match energy_value_fn cd with
             | some v => some (some v)
             | none => some none) := rfl
      rw [h0]
      by_cases h : cd.data.online = false
      · rw [if_pos h]
        rfl
      · rw [if_neg h]
        cases hc : energy_value_fn cd <;> simp

/-- C10 witness: a concrete offline tick produces the attribute-less stub,
via the theorem. -/
theorem energy_attr_handling_witness :
    (tick "203.0.113.11" false initialCoordState ⟨false, 5, none⟩).2.2 =
      some ⟨{ ip := "203.0.113.11", online := false }, none⟩ :=
  (energy_attr_handling "203.0.113.11" false initialCoordState
    ⟨false, 5, none⟩).1 rfl

end Avalon

section ParserExamples

example :
    Avalon.parse_miner_response "k=a=b" =
      some [[("k", Avalon.Value.scalar (Avalon.Scalar.str "a"))]] := by
  decide

example :
    Avalon.splitCD "a,b[1,2],c" ',' = ["a", "b[1,2]", "c"] := by decide

example :
    Avalon.splitCD "k=" '=' = ["k"] := by decide

example :
    Avalon.splitCD "k==v" '=' = ["k", "", "v"] := by decide

example :
    Avalon.parse_miner_response "A=x[1 2] y[3]" =
      some [[("A", Avalon.Value.nested
        [("x", Avalon.NVal.arr [Avalon.Scalar.int 1, Avalon.Scalar.int 2]),
         ("y", Avalon.NVal.scalar (Avalon.Scalar.int 3))])]] := by
  decide

example :
    Avalon.parse_miner_response "M=hello big world" =
      some [[("M", Avalon.Value.scalar (Avalon.Scalar.str "hello big world"))]] := by
  decide

end ParserExamples

example : Avalon._coerce "1e5" = none := by decide
example : ∃ f, Avalon._coerce "3.5" = some (Avalon.Scalar.float f) := ⟨_, rfl⟩
example : Avalon._coerce "42" = some (Avalon.Scalar.int 42) := by decide
example : Avalon._coerce "TrUe" = some (Avalon.Scalar.bool true) := by decide
example : Avalon._coerce "80%" = some (Avalon.Scalar.str "80%") := by decide
example : Avalon._coerce "inf" = none := by decide
example : Avalon._coerce " 42 " = some (Avalon.Scalar.int 42) := by decide
example : Avalon._coerce "1_0" = some (Avalon.Scalar.int 10) := by decide
example : Avalon._coerce "1__0" = some (Avalon.Scalar.str "1__0") := by decide
